import Mathlib

/-!
Verification development for the CSV finalization script
(`processed_data/502_investment/script/final.py`).

The script reads CSV files with every cell typed as text (pandas
`read_csv(dtype=str)`, missing cells become NaN), renames three columns,
checks that six required columns are present, projects to those six
columns, coerces `county_fips` to a digit string and the two numeric
columns to 64-bit integers, and writes the result with a hand-rolled CSV
writer that quotes only `county_fips`.

Modelling choices:
* a cell is `null` (NaN), a string, or (after coercion) a 64-bit integer;
* a dataframe is a column-name list plus row-major cell lists;
* `finalize_dataframe` returns `Except FinalizeError DataFrame`: the
  source signals the missing-column failure by logging the missing list
  and returning an empty dataframe, which the caller detects via
  `.empty`; the `Except.error (missingColumns ...)` value models that
  logged error together with the empty return, and the caller maps it to
  "no output written" exactly as `process_csv_file` does in the source;
* `pd.to_numeric(errors=coerce)` composed with `fillna(0).astype(int64)`
  is modelled by a decimal-literal parser that truncates toward zero
  (`toNumericTrunc`); inputs it rejects are the inputs the pipeline sends
  to 0, including the text "nan" whose NaN result `fillna(0)` collapses
  to 0 as well.
-/

/-- A pandas cell as this script uses them: dataframes are read with all
cells as text, so a cell is a missing value (NaN), a string, or — after
the coercion steps — a 64-bit integer. -/
inductive Cell where
  | null : Cell
  | str (s : String) : Cell
  | int (n : Int) : Cell
deriving DecidableEq

/-- An in-memory table: column names plus rows of cells (row-major). -/
structure DataFrame where
  cols : List String
  rows : List (List Cell)
deriving DecidableEq

/-- Python str() of a cell as pandas produces it: NaN stringifies to
"nan" (this is what astype(str) and f-string formatting yield for a
missing value). -/
def py_str : Cell → String
  | Cell.null => "nan"
  | Cell.str s => s
  | Cell.int n => toString n

/-- pd.isna on a single cell. -/
def pd_isna : Cell → Bool
  | Cell.null => true
  | _ => false

/-- Python int() as the writer uses it; on the source's paths it is only
applied to cells already coerced to int64, so only the `int` case is ever
exercised. -/
def py_int : Cell → Int
  | Cell.int n => n
  | _ => 0

/-- Value of a digit string, most significant digit first. -/
def digitsVal (l : List Char) : Nat :=
  l.foldl (fun a c => 10 * a + (c.toNat - 48)) 0

/-- pd.to_numeric(errors=coerce) followed by truncation toward zero on
one string: strips surrounding whitespace, accepts an optional sign and a
decimal literal with an optional fractional part, and truncates toward
zero exactly as numpy's astype(int64) does on the parsed value. Any other
string yields `none`, the model of NaN (so does the text "nan", whose
genuine NaN parse the pipeline's fillna(0) collapses to the same 0). -/
def toNumericTrunc (s : String) : Option Int :=
  let l := ((s.data.dropWhile Char.isWhitespace).reverse.dropWhile Char.isWhitespace).reverse
  let signed : Int × List Char :=
    match l with
    | '-' :: rest => (-1, rest)
    | '+' :: rest => (1, rest)
    | _ => (1, l)
  let intPart := signed.2.takeWhile Char.isDigit
  let rest := signed.2.dropWhile Char.isDigit
  match rest with
  | [] => if intPart.isEmpty then none else some (signed.1 * digitsVal intPart)
  | '.' :: frac =>
    if frac.all Char.isDigit && !(intPart.isEmpty && frac.isEmpty) then
      some (signed.1 * digitsVal intPart)
    else none
  | _ => none

/-- numpy astype(int64): wrap an integer into the signed 64-bit range. -/
def toInt64 (z : Int) : Int := (z + 2 ^ 63) % 2 ^ 64 - 2 ^ 63

/-- First maximal contiguous run of digit characters, the semantics of
the source's regex digit-run extraction. -/
def firstDigitRun : List Char → Option (List Char)
  | [] => none
  | c :: cs =>
    if c.isDigit then some (c :: cs.takeWhile Char.isDigit)
    else firstDigitRun cs

/-- The county_fips string transform: .str.extract of the first digit run
followed by .fillna with the empty string. -/
def extract_digits (s : String) : String :=
  match firstDigitRun s.data with
  | none => ""
  | some r => String.mk r

/-- county_fips coercion applied cellwise: astype(str), extract the first
digit run, fill a failed match with the empty string. -/
def coerce_fips (c : Cell) : Cell := Cell.str (extract_digits (py_str c))

/-- Python str.replace(old, empty) for a one-character pattern: remove
every occurrence of that character. -/
def removeChar (t : Char) (s : String) : String :=
  String.mk (s.data.filter (fun c => !(c == t)))

/-- The dollars column's first statement: astype(str) then remove every
comma, then remove every dollar sign. -/
def coerce_strip (c : Cell) : Cell :=
  Cell.str (removeChar '$' (removeChar ',' (py_str c)))

/-- pd.to_numeric(errors=coerce) on one cell: NaN stays NaN, strings are
parsed, integers pass through. -/
def toNumericCell : Cell → Option Int
  | Cell.null => none
  | Cell.str s => toNumericTrunc s
  | Cell.int n => some n

/-- pd.to_numeric(errors=coerce).fillna(0).astype(int64) applied
cellwise: the shared second statement of the dollars coercion and the
whole count coercion. -/
def coerce_numeric_int64 (c : Cell) : Cell :=
  Cell.int (toInt64 ((toNumericCell c).getD 0))

/-- The fixed rename mapping of the source applied to one column name. -/
def column_mapping (c : String) : String :=
  if c = "fiscal_year" then "year"
  else if c = "investment_dollars" then "502_investment_dollars"
  else if c = "number_of_investments" then "number_of_502_investment"
  else c

/-- df.rename(columns=column_mapping): renames labels, keeps the rows. -/
def rename_columns (df : DataFrame) : DataFrame :=
  ⟨df.cols.map column_mapping, df.rows⟩

/-- The six required output columns, in their fixed order. -/
def required_columns : List String :=
  ["year", "county", "state_name", "county_fips",
   "502_investment_dollars", "number_of_502_investment"]

/-- df[cs]: project the dataframe to the named columns, in that order.
Cells are located through the first column with the requested name. -/
def selectColumns (cs : List String) (df : DataFrame) : DataFrame :=
  ⟨cs, df.rows.map (fun r => cs.map (fun c => r.getD (df.cols.indexOf c) Cell.null))⟩

/-- df[name] = df[name].map f: replace one column's cells pointwise. -/
def mapColumn (name : String) (f : Cell → Cell) (df : DataFrame) : DataFrame :=
  ⟨df.cols, df.rows.map (fun r =>
    r.set (df.cols.indexOf name) (f (r.getD (df.cols.indexOf name) Cell.null)))⟩

/-- The failure the source signals by logging the missing column list and
returning an empty dataframe. -/
inductive FinalizeError where
  | missingColumns (cols : List String) : FinalizeError
deriving DecidableEq

/-- finalize_dataframe from the source: copy, rename, validate the six
required columns (failing with the missing list), project to exactly
those columns, then coerce county_fips, the dollars column (two
statements: strip punctuation, then numeric int64), and the count
column. -/
def finalize_dataframe (df : DataFrame) : Except FinalizeError DataFrame :=
  let final_df := df
  let final_df := rename_columns final_df
  let missing := required_columns.filter (fun c => !(final_df.cols.contains c))
  if missing = [] then
    let final_df := selectColumns required_columns final_df
    let final_df := mapColumn "county_fips" coerce_fips final_df
    let final_df := mapColumn "502_investment_dollars" coerce_strip final_df
    let final_df := mapColumn "502_investment_dollars" coerce_numeric_int64 final_df
    let final_df := mapColumn "number_of_502_investment" coerce_numeric_int64 final_df
    Except.ok final_df
  else Except.error (FinalizeError.missingColumns missing)

/-- The writer's own column list (textually separate in the source). -/
def writer_cols : List String :=
  ["year", "county", "state_name", "county_fips",
   "502_investment_dollars", "number_of_502_investment"]

/-- One emitted record line: the loop body of the writer. county,
state_name and county_fips are guarded against NaN with the empty string;
year is formatted directly (so a NaN year prints as "nan"); dollars and
the count go through int(). Only county_fips is wrapped in double
quotes. -/
def format_row (r : List Cell) : String :=
  let year := r.getD 0 Cell.null
  let county0 := r.getD 1 Cell.null
  let state0 := r.getD 2 Cell.null
  let fips0 := r.getD 3 Cell.null
  let dollars := r.getD 4 Cell.null
  let n_loans := r.getD 5 Cell.null
  let county := if pd_isna county0 then "" else py_str county0
  let state_name := if pd_isna state0 then "" else py_str state0
  let county_fips := if pd_isna fips0 then "" else py_str fips0
  py_str year ++ "," ++ county ++ "," ++ state_name ++ ",\"" ++ county_fips
    ++ "\"," ++ toString (py_int dollars) ++ "," ++ toString (py_int n_loans) ++ "\n"

/-- write_csv_only_county_fips_quoted: the unquoted comma-joined header
line, then one formatted line per row of df[writer_cols]; every line ends
in a single newline. The returned string is the output file's contents. -/
def write_csv_only_county_fips_quoted (df : DataFrame) : String :=
  String.intercalate "," writer_cols ++ "\n"
    ++ String.join ((selectColumns writer_cols df).rows.map format_row)

/-- Outcome of processing one input file: the success flag and record
count the source returns, plus the contents of the output file when one
is written (`none` models "no output file produced"). -/
structure ProcessResult where
  success : Bool
  recordCount : Nat
  output : Option String
deriving DecidableEq

/-- pandas DataFrame.empty: some axis has length zero. -/
def df_empty (df : DataFrame) : Bool := df.rows.isEmpty || df.cols.isEmpty

/-- process_csv_file on an already-loaded dataframe: finalize, treat an
empty result (the missing-column failure path or zero surviving rows) as
failure with no output file, otherwise write the custom CSV. -/
def process_csv_file (df : DataFrame) : ProcessResult :=
  match finalize_dataframe df with
  | Except.error _ => ⟨false, 0, none⟩
  | Except.ok fdf =>
    if df_empty fdf then ⟨false, 0, none⟩
    else ⟨true, fdf.rows.length, some (write_csv_only_county_fips_quoted fdf)⟩

/-- Alias-tracking replay of finalize_dataframe. Each Python object the
function touches is modelled separately: object 0 is the caller's
argument, object 1 the fresh df.copy(), object 2 the fresh result of
rename, object 3 the fresh projection copy; the four column assignments
mutate only object 3 (modelled by the shadowed rebindings of obj3), so
no statement ever writes through an alias of object 0. The result is the
heap of objects at exit together with the reference the function returns
(or the failure). -/
def finalize_heap (df : DataFrame) : List DataFrame × Except FinalizeError Nat :=
  let obj0 := df
  let obj1 := obj0
  let obj2 := rename_columns obj1
  let missing := required_columns.filter (fun c => !(obj2.cols.contains c))
  if missing = [] then
    let obj3 := selectColumns required_columns obj2
    let obj3 := mapColumn "county_fips" coerce_fips obj3
    let obj3 := mapColumn "502_investment_dollars" coerce_strip obj3
    let obj3 := mapColumn "502_investment_dollars" coerce_numeric_int64 obj3
    let obj3 := mapColumn "number_of_502_investment" coerce_numeric_int64 obj3
    ([obj0, obj1, obj2, obj3], Except.ok 3)
  else ([obj0, obj1, obj2], Except.error (FinalizeError.missingColumns missing))

/-- A raw input row as the filter stage produces it, with one extra
column the finalizer must discard. -/
def sample_input : DataFrame :=
  ⟨["fiscal_year", "county", "state_name", "county_fips",
    "investment_dollars", "number_of_investments", "program_area"],
   [[Cell.str "2020", Cell.str "Fulton", Cell.str "Georgia", Cell.str "13121",
     Cell.str "$500,000", Cell.str "3", Cell.str "502"]]⟩

/-- An input whose columns lack county_fips entirely. -/
def missing_fips_input : DataFrame :=
  ⟨["fiscal_year", "county", "state_name",
    "investment_dollars", "number_of_investments"],
   [[Cell.str "2020", Cell.str "Fulton", Cell.str "Georgia",
     Cell.str "100", Cell.str "1"]]⟩

/-- An input with all required columns but zero rows. -/
def empty_rows_input : DataFrame :=
  ⟨["fiscal_year", "county", "state_name", "county_fips",
    "investment_dollars", "number_of_investments"], []⟩

/-- The finalized record of the spec's round-trip example. -/
def sample_finalized : DataFrame :=
  ⟨writer_cols,
   [[Cell.str "2020", Cell.str "Fulton", Cell.str "Georgia", Cell.str "13121",
     Cell.int 500000, Cell.int 3]]⟩

/-- toInt64 always lands in the signed 64-bit range. -/
lemma toInt64_range (z : Int) : -(2 ^ 63) ≤ toInt64 z ∧ toInt64 z < 2 ^ 63 := by
  unfold toInt64
  have hne : ((2 : Int) ^ 64) ≠ 0 := by norm_num
  have hpos : (0 : Int) < 2 ^ 64 := by norm_num
  have h1 : 0 ≤ (z + 2 ^ 63) % 2 ^ 64 := Int.emod_nonneg _ hne
  have h2 : (z + 2 ^ 63) % 2 ^ 64 < 2 ^ 64 := Int.emod_lt_of_pos _ hpos
  have hsplit : ((2 : Int) ^ 64) = 2 ^ 63 + 2 ^ 63 := by norm_num
  constructor <;> linarith

/-- Every element of a digit-takeWhile is a digit. -/
lemma mem_takeWhile_digit (l : List Char) :
    ∀ c ∈ l.takeWhile Char.isDigit, c.isDigit = true := by
  induction l with
  | nil => intro c hc; cases hc
  | cons a t ih =>
    intro c hc
    by_cases ha : a.isDigit
    · rw [List.takeWhile_cons, if_pos ha] at hc
      cases hc with
      | head => exact ha
      | tail _ ht => exact ih c ht
    · rw [List.takeWhile_cons, if_neg ha] at hc
      cases hc

/-- The head of a digit-dropWhile, when present, is not a digit. -/
lemma head_dropWhile_digit (l : List Char) :
    ∀ d, (l.dropWhile Char.isDigit).head? = some d → d.isDigit = false := by
  induction l with
  | nil => intro d hd; cases hd
  | cons a t ih =>
    intro d hd
    by_cases ha : a.isDigit
    · rw [List.dropWhile_cons, if_pos ha] at hd
      exact ih d hd
    · rw [List.dropWhile_cons, if_neg ha] at hd
      simp only [List.head?_cons, Option.some.injEq] at hd
      subst hd
      cases h' : a.isDigit
      · rfl
      · exact absurd h' ha

/-- When firstDigitRun finds nothing, the list holds no digit at all. -/
lemma firstDigitRun_none_sound (l : List Char) :
    firstDigitRun l = none → ∀ c ∈ l, c.isDigit = false := by
  induction l with
  | nil => intro _ c hc; cases hc
  | cons a t ih =>
    intro h c hc
    by_cases ha : a.isDigit
    · simp [firstDigitRun, ha] at h
    · rw [firstDigitRun, if_neg ha] at h
      cases hc with
      | head =>
        cases h' : a.isDigit
        · rfl
        · exact absurd h' ha
      | tail _ ht => exact ih h c ht

/-- When firstDigitRun returns a run, that run is a nonempty all-digit
segment of the list, everything before it is digit-free, and the
character right after it (if any) is not a digit. -/
lemma firstDigitRun_some_sound (l : List Char) :
    ∀ r, firstDigitRun l = some r →
      ∃ pre post, l = pre ++ r ++ post
        ∧ (∀ c ∈ pre, c.isDigit = false)
        ∧ r ≠ []
        ∧ (∀ c ∈ r, c.isDigit = true)
        ∧ (∀ d, post.head? = some d → d.isDigit = false) := by
  induction l with
  | nil => intro r h; cases h
  | cons a t ih =>
    intro r h
    by_cases ha : a.isDigit
    · rw [firstDigitRun, if_pos ha] at h
      injection h with h
      subst h
      refine ⟨[], t.dropWhile Char.isDigit, ?_, ?_, ?_, ?_, ?_⟩
      · simp [List.takeWhile_append_dropWhile]
      · intro c hc; cases hc
      · simp
      · intro c hc
        cases hc with
        | head => exact ha
        | tail _ ht => exact mem_takeWhile_digit t c ht
      · exact head_dropWhile_digit t
    · rw [firstDigitRun, if_neg ha] at h
      obtain ⟨pre, post, heq, hpre, hne, hdig, hpost⟩ := ih r h
      refine ⟨a :: pre, post, ?_, ?_, hne, hdig, hpost⟩
      · simp [heq]
      · intro c hc
        cases hc with
        | head =>
          cases h' : a.isDigit
          · rfl
          · exact absurd h' ha
        | tail _ ht => exact hpre c ht

/-- Boolean negation flips the compared constant. -/
lemma bnot_eq_true {b : Bool} : (!b) = true ↔ b = false := by
  cases b <;> simp

/-- Removing a character really removes it. -/
lemma not_mem_removeChar (t : Char) (s : String) : t ∉ (removeChar t s).data := by
  intro h
  have := List.mem_filter.mp h
  simp at this

/-- A filter over required_columns whose predicate fails everywhere is
empty: the missing-column check passes when every column is present. -/
lemma filter_not_contains_nil (l m : List String)
    (h : ∀ c ∈ l, m.contains c = true) :
    l.filter (fun c => !(m.contains c)) = [] := by
  induction l with
  | nil => rfl
  | cons a tl ih =>
    rw [List.filter_cons]
    have ha := h a (List.mem_cons_self a tl)
    simp only [ha, Bool.not_true, Bool.false_eq_true, if_false]
    exact ih fun c hc => h c (List.mem_cons_of_mem a hc)

/-- On the success path (no missing column) finalize_dataframe returns
the projection of the renamed frame followed by the four column
coercion statements. -/
lemma finalize_ok_of_no_missing (df : DataFrame)
    (h : required_columns.filter (fun c => !((rename_columns df).cols.contains c)) = []) :
    finalize_dataframe df =
      Except.ok (mapColumn "number_of_502_investment" coerce_numeric_int64
        (mapColumn "502_investment_dollars" coerce_numeric_int64
          (mapColumn "502_investment_dollars" coerce_strip
            (mapColumn "county_fips" coerce_fips
              (selectColumns required_columns (rename_columns df)))))) := by
  simp only [finalize_dataframe]
  rw [if_pos h]

/-- C1: the CSV writer emits first the unquoted comma-joined header line,
then one line per record with the fields in the fixed order
year,county,state_name,county_fips,dollars,count, where only county_fips
is wrapped in double quotes, dollars and count are bare integers, every
line ends in a single newline, and on the spec's round-trip record the
emitted text is exactly the stated header plus
2020,Fulton,Georgia,"13121",500000,3. -/
theorem c1_csv_writer_format :
    (∀ df : DataFrame, ∃ body,
      write_csv_only_county_fips_quoted df
        = "year,county,state_name,county_fips,502_investment_dollars,number_of_502_investment\n"
          ++ body)
    ∧ (∀ (y c s f : String) (d n : Int),
      format_row [Cell.str y, Cell.str c, Cell.str s, Cell.str f, Cell.int d, Cell.int n]
        = y ++ "," ++ c ++ "," ++ s ++ ",\"" ++ f ++ "\"," ++ toString d ++ ","
          ++ toString n ++ "\n")
    ∧ write_csv_only_county_fips_quoted sample_finalized
        = "year,county,state_name,county_fips,502_investment_dollars,number_of_502_investment\n2020,Fulton,Georgia,\"13121\",500000,3\n"
    ∧ (∀ df : DataFrame, ∀ line ∈ ((selectColumns writer_cols df).rows.map format_row),
        ∃ pre, line = pre ++ "\n") := by
  refine ⟨?_, ?_, by decide, ?_⟩
  · intro df
    exact ⟨String.join ((selectColumns writer_cols df).rows.map format_row), rfl⟩
  · intro y c s f d n
    rfl
  · intro df line hline
    obtain ⟨r, _, rfl⟩ := List.mem_map.mp hline
    exact ⟨_, rfl⟩

/-- C2: when all six required output fields are present after renaming,
finalize_dataframe succeeds with exactly those six columns in the fixed
order and one output row per input row; all other columns are gone. -/
theorem c2_finalize_shape (df : DataFrame)
    (h : ∀ c ∈ required_columns, (rename_columns df).cols.contains c = true) :
    ∃ out, finalize_dataframe df = Except.ok out
      ∧ out.cols = required_columns
      ∧ out.rows.length = df.rows.length := by
  refine ⟨_, finalize_ok_of_no_missing df
    (filter_not_contains_nil _ _ h), rfl, ?_⟩
  simp [mapColumn, selectColumns, rename_columns]

/-- C2 witness: the sample input (which carries one extra column) has all
six required fields after renaming, and finalize keeps its one row. -/
theorem c2_finalize_shape_witness :
    (∀ c ∈ required_columns, (rename_columns sample_input).cols.contains c = true)
    ∧ ∃ out, finalize_dataframe sample_input = Except.ok out
        ∧ out.cols = required_columns
        ∧ out.rows.length = sample_input.rows.length :=
  ⟨by decide, c2_finalize_shape sample_input (by decide)⟩

/-- C3: the county_fips coercion treats the value as text and keeps the
first contiguous digit run (empty string when there is none, leading
zeros preserved, no zero-padding): the three spec examples hold, and in
general the extracted string is an all-digit segment of the input that is
preceded only by non-digits and followed by a non-digit (so it is the
first maximal digit run), with the empty result exactly when the input
has no digit. -/
theorem c3_county_fips_coercion :
    coerce_fips (Cell.str "1007.0") = Cell.str "1007"
    ∧ coerce_fips (Cell.str "abc") = Cell.str ""
    ∧ coerce_fips (Cell.str "01007") = Cell.str "01007"
    ∧ (∀ s : String, ∃ pre run post,
        s.data = pre ++ run ++ post
        ∧ extract_digits s = String.mk run
        ∧ (∀ c ∈ pre, c.isDigit = false)
        ∧ (∀ c ∈ run, c.isDigit = true)
        ∧ (run = [] → pre = s.data ∧ post = [])
        ∧ (∀ d, post.head? = some d → d.isDigit = false)) := by
  refine ⟨by decide, by decide, by decide, ?_⟩
  intro s
  cases h : firstDigitRun s.data with
  | none =>
    refine ⟨s.data, [], [], by simp, by simp [extract_digits, h], ?_, ?_, ?_, ?_⟩
    · exact firstDigitRun_none_sound s.data h
    · intro c hc; cases hc
    · intro _; exact ⟨rfl, rfl⟩
    · intro d hd; cases hd
  | some r =>
    obtain ⟨pre, post, heq, hpre, hne, hdig, hpost⟩ := firstDigitRun_some_sound s.data r h
    exact ⟨pre, r, post, heq, by simp [extract_digits, h], hpre, hdig,
      fun hr => absurd hr hne, hpost⟩

/-- C4: the dollars coercion stringifies the value, removes every comma
and dollar sign, parses the remainder as a number with fallback 0, and
lands in the signed 64-bit range: the three spec examples hold, no comma
or dollar sign survives the stripping, a failed parse yields 0, and the
result is always an integer in the int64 range. -/
theorem c4_dollars_coercion :
    coerce_numeric_int64 (coerce_strip (Cell.str "$303,030")) = Cell.int 303030
    ∧ coerce_numeric_int64 (coerce_strip (Cell.str "N/A")) = Cell.int 0
    ∧ coerce_numeric_int64 (coerce_strip (Cell.str "")) = Cell.int 0
    ∧ (∀ s : String, ',' ∉ (removeChar '$' (removeChar ',' s)).data
        ∧ '$' ∉ (removeChar '$' (removeChar ',' s)).data)
    ∧ (∀ c : Cell, toNumericCell (coerce_strip c) = none →
        coerce_numeric_int64 (coerce_strip c) = Cell.int 0)
    ∧ (∀ c : Cell, ∃ n : Int, coerce_numeric_int64 c = Cell.int n
        ∧ -(2 ^ 63) ≤ n ∧ n < 2 ^ 63) := by
  refine ⟨by decide, by decide, by decide, ?_, ?_, ?_⟩
  · intro s
    constructor
    · intro hmem
      exact not_mem_removeChar ',' s (List.mem_of_mem_filter hmem)
    · exact not_mem_removeChar '$' (removeChar ',' s)
  · intro c h
    simp only [coerce_numeric_int64, h, Option.getD_none]
    decide
  · intro c
    exact ⟨toInt64 ((toNumericCell c).getD 0), rfl,
      (toInt64_range _).1, (toInt64_range _).2⟩

/-- C5: when at least one required output field is absent after renaming,
finalize_dataframe fails with a MissingColumns error whose list holds
exactly the required columns that are absent, and the file-processing
step produces no output file and reports failure. -/
theorem c5_missing_columns_failure (df : DataFrame)
    (h : ∃ c ∈ required_columns, (rename_columns df).cols.contains c = false) :
    ∃ missing,
      finalize_dataframe df = Except.error (FinalizeError.missingColumns missing)
      ∧ missing ≠ []
      ∧ (∀ c, c ∈ missing ↔
          c ∈ required_columns ∧ (rename_columns df).cols.contains c = false)
      ∧ (process_csv_file df).output = none
      ∧ (process_csv_file df).success = false := by
  obtain ⟨c, hc, hcf⟩ := h
  have hmem : c ∈ required_columns.filter
      (fun x => !((rename_columns df).cols.contains x)) :=
    List.mem_filter.mpr ⟨hc, bnot_eq_true.mpr hcf⟩
  have hne : required_columns.filter
      (fun x => !((rename_columns df).cols.contains x)) ≠ [] :=
    List.ne_nil_of_mem hmem
  have hfin : finalize_dataframe df = Except.error (FinalizeError.missingColumns
      (required_columns.filter (fun x => !((rename_columns df).cols.contains x)))) := by
    simp only [finalize_dataframe]
    rw [if_neg hne]
  refine ⟨_, hfin, hne, ?_, ?_, ?_⟩
  · intro x
    constructor
    · intro hx
      have hx' := List.mem_filter.mp hx
      exact ⟨hx'.1, bnot_eq_true.mp hx'.2⟩
    · intro hx
      exact List.mem_filter.mpr ⟨hx.1, bnot_eq_true.mpr hx.2⟩
  · simp [process_csv_file, hfin]
  · simp [process_csv_file, hfin]

/-- C5 witness: an input lacking county_fips fails with the missing list
and yields no output. -/
theorem c5_missing_columns_failure_witness :
    (∃ c ∈ required_columns,
      (rename_columns missing_fips_input).cols.contains c = false)
    ∧ ∃ missing,
        finalize_dataframe missing_fips_input
          = Except.error (FinalizeError.missingColumns missing)
        ∧ missing ≠ []
        ∧ (∀ c, c ∈ missing ↔
            c ∈ required_columns
            ∧ (rename_columns missing_fips_input).cols.contains c = false)
        ∧ (process_csv_file missing_fips_input).output = none
        ∧ (process_csv_file missing_fips_input).success = false :=
  ⟨by decide, c5_missing_columns_failure missing_fips_input (by decide)⟩

/-- C6: the count coercion parses the value as a number with fallback 0
and lands in the signed 64-bit range: the two spec examples hold, a
failed parse yields 0, and the result is always an integer in the int64
range. -/
theorem c6_count_coercion :
    coerce_numeric_int64 (Cell.str "12") = Cell.int 12
    ∧ coerce_numeric_int64 (Cell.str "twelve") = Cell.int 0
    ∧ (∀ c : Cell, toNumericCell c = none → coerce_numeric_int64 c = Cell.int 0)
    ∧ (∀ c : Cell, ∃ n : Int, coerce_numeric_int64 c = Cell.int n
        ∧ -(2 ^ 63) ≤ n ∧ n < 2 ^ 63) := by
  refine ⟨by decide, by decide, ?_, ?_⟩
  · intro c h
    simp only [coerce_numeric_int64, h, Option.getD_none]
    decide
  · intro c
    exact ⟨toInt64 ((toNumericCell c).getD 0), rfl,
      (toInt64_range _).1, (toInt64_range _).2⟩

/-- C7: an input that passes column validation but has zero rows is
treated as total failure: finalize succeeds with an empty row list, and
the file-processing step reports failure and writes no output file
instead of an empty-but-valid one. -/
theorem c7_zero_rows_failure (df : DataFrame)
    (hcols : ∀ c ∈ required_columns, (rename_columns df).cols.contains c = true)
    (hrows : df.rows = []) :
    (∃ out, finalize_dataframe df = Except.ok out ∧ out.rows = [])
    ∧ (process_csv_file df).success = false
    ∧ (process_csv_file df).output = none := by
  have hfin := finalize_ok_of_no_missing df (filter_not_contains_nil _ _ hcols)
  have hout : (mapColumn "number_of_502_investment" coerce_numeric_int64
      (mapColumn "502_investment_dollars" coerce_numeric_int64
        (mapColumn "502_investment_dollars" coerce_strip
          (mapColumn "county_fips" coerce_fips
            (selectColumns required_columns (rename_columns df)))))).rows = [] := by
    simp [mapColumn, selectColumns, rename_columns, hrows]
  refine ⟨⟨_, hfin, hout⟩, ?_, ?_⟩
  · simp [process_csv_file, hfin, df_empty, hout]
  · simp [process_csv_file, hfin, df_empty, hout]

/-- C7 witness: an input with the six source columns and no rows fails
with no output. -/
theorem c7_zero_rows_failure_witness :
    (∀ c ∈ required_columns,
      (rename_columns empty_rows_input).cols.contains c = true)
    ∧ empty_rows_input.rows = []
    ∧ ((∃ out, finalize_dataframe empty_rows_input = Except.ok out
          ∧ out.rows = [])
        ∧ (process_csv_file empty_rows_input).success = false
        ∧ (process_csv_file empty_rows_input).output = none) :=
  ⟨by decide, rfl, c7_zero_rows_failure empty_rows_input (by decide) rfl⟩

/-- C8: the finalize-then-write pipeline is a pure function of the input
table, so two runs on equal inputs produce byte-identical output file
contents (and equal success flags and record counts). -/
theorem c8_pipeline_deterministic (d1 d2 : DataFrame) (h : d1 = d2) :
    process_csv_file d1 = process_csv_file d2 := by
  rw [h]

/-- C8 witness: the pipeline run twice on the sample input gives the
same result. -/
theorem c8_pipeline_deterministic_witness :
    sample_input = sample_input
    ∧ process_csv_file sample_input = process_csv_file sample_input :=
  ⟨rfl, c8_pipeline_deterministic sample_input sample_input rfl⟩

/-- C9: the writer guards county, state_name and county_fips against NaN
with the empty string, but not year: a missing year is emitted as the
literal text nan, as the general row shape and the all-missing concrete
row show (county and state_name become empty, county_fips becomes a
quoted empty string, yet year prints as nan). -/
theorem c9_year_nan_unguarded :
    py_str Cell.null = "nan"
    ∧ (if pd_isna Cell.null then "" else py_str Cell.null) = ""
    ∧ format_row [Cell.null, Cell.null, Cell.null, Cell.null, Cell.int 7, Cell.int 2]
        = "nan,,,\"\",7,2\n"
    ∧ (∀ (county state fips : Cell) (d n : Int),
        format_row [Cell.null, county, state, fips, Cell.int d, Cell.int n]
          = "nan" ++ "," ++ (if pd_isna county then "" else py_str county) ++ ","
            ++ (if pd_isna state then "" else py_str state) ++ ",\""
            ++ (if pd_isna fips then "" else py_str fips) ++ "\","
            ++ toString d ++ "," ++ toString n ++ "\n") := by
  refine ⟨rfl, rfl, by decide, ?_⟩
  intro county state fips d n
  rfl

/-- C10: finalize never mutates its argument: replaying the function
with explicit heap objects and Python aliasing (copies and rename create
fresh objects, the four column assignments mutate only the object bound
to final_df), the caller's object is unchanged on both the success and
the failure path, the returned reference never aliases the argument, and
the replay computes the same result as finalize_dataframe. -/
theorem c10_finalize_preserves_input (df : DataFrame) :
    (finalize_heap df).1.getD 0 ⟨[], []⟩ = df
    ∧ (∀ i, (finalize_heap df).2 = Except.ok i → i ≠ 0)
    ∧ ((finalize_heap df).2.map fun i => (finalize_heap df).1.getD i ⟨[], []⟩)
        = finalize_dataframe df := by
  refine ⟨?_, ?_, ?_⟩
  · simp only [finalize_heap]
    split
    · rfl
    · rfl
  · intro i hi
    simp only [finalize_heap] at hi
    split at hi
    · cases hi; decide
    · cases hi
  · simp only [finalize_heap, finalize_dataframe]
    split
    · rfl
    · rfl
